import Mathlib

/-!
Shallow embedding of the nav2 planning test harness
(`nav2_system_tests/src/planning/planner_tester.cpp`) and the recovery
test harness (`nav2_recoveries/test/test_recoveries.cpp`).

Conventions: C++ `double` coordinates are modelled as exact rationals `ℚ`
(the claims under study concern exact comparisons and rounding, not
floating-point error); C++ `unsigned int` is `Nat` with an explicit
reduction modulo `2^32` at the narrowing conversion; `std::chrono`
timestamps are integer nanosecond counts, as in the C++ library;
fallible vector indexing is modelled totally with `Option`.
-/

namespace Nav2

/-- A 2-D position (`geometry_msgs::msg::Point` / `Pose.position`);
only `x` and `y` are ever read by the planner tester. -/
structure Point where
  x : ℚ
  y : ℚ
deriving DecidableEq, Repr

/-- The enum `nav2_system_tests::TaskStatus` (planner_tester.hpp, lines 38-43). -/
inductive TaskStatus where
  | succeeded
  | failed
  | running
deriving DecidableEq, Repr

/-- The C library rounding `std::round`: nearest integer, halfway cases away
from zero.  For `q = n/d` in lowest terms with `d > 0` and `n ≥ 0` this
is `⌊q + 1/2⌋ = (2n + d) / (2d)` (integer floor division), and rounding
is symmetric about zero; the lemma `cppRound_eq_floor_ceil` below checks
this definition against the textbook `⌊q + 1/2⌋` / `⌈q - 1/2⌉` form. -/
def cppRound (q : ℚ) : Int :=
  if 0 ≤ q.num then (2 * q.num + q.den).ediv (2 * q.den)
  else -((2 * (-q.num) + q.den).ediv (2 * q.den))

/-- The narrowing conversion `static_cast<unsigned int>` applied to an
integral value, modelled as reduction modulo `2^32` (wraparound, the
behavior of the targeted implementations). -/
def toUnsigned32 (i : Int) : Nat :=
  (i % (2 ^ 32 : Int)).toNat

/-- The cell index computed for one coordinate in
`PlannerTester::isCollisionFree` (planner_tester.cpp, lines 417-419):
`static_cast<unsigned int>(std::round(coord))`. -/
def cellIndex (q : ℚ) : Nat :=
  toUnsigned32 (cppRound q)

/-- Embedding of `PlannerTester::isCollisionFree` (planner_tester.cpp, lines 403-431).
The costmap is abstracted by its free predicate `free` (the call
`costmap_->is_free(x, y)` on already-converted unsigned cell indices).
The loop returns `false` at the first pose whose cell is not free and
`true` once all poses passed (so also on an empty pose list). -/
def isCollisionFree (free : Nat → Nat → Bool) : List Point → Bool
  | [] => true
  | p :: rest =>
    if free (cellIndex p.x) (cellIndex p.y) then isCollisionFree free rest
    else false

/-- The five-argument `PlannerTester::isWithinTolerance`
(planner_tester.cpp, lines 442-474).  It reads `path.poses[0]` and
`path.poses.end()[-1]`; both accesses are modelled totally, returning
`none` when the pose list is empty.  The body compares the first pose to
the robot position and the last pose to the goal position with exact
equality; `deviationTolerance` and `reference_path` are accepted but
never read. -/
def isWithinTolerance5 (robot_position : Point) (goal : Point)
    (path : List Point) (_deviationTolerance : ℚ)
    (_reference_path : List Point) : Option Bool := do
  let path_start ← path.head?
  let path_end ← path.getLast?
  pure (decide (path_start.x = robot_position.x ∧
    path_start.y = robot_position.y ∧
    path_end.x = goal.x ∧ path_end.y = goal.y))

/-- The three-argument `PlannerTester::isWithinTolerance`
(planner_tester.cpp, lines 433-440): delegates to the five-argument
overload with tolerance `0.0` and an empty reference path. -/
def isWithinTolerance3 (robot_position : Point) (goal : Point)
    (path : List Point) : Option Bool :=
  isWithinTolerance5 robot_position goal path 0 []

/-- Embedding of `PlannerTester::plannerTest` (planner_tester.cpp, lines 321-346)
after the request has been answered: `status` is the value returned by
`sendRequest` and `path` the returned pose list.  On `FAILED` (and on
the fall-through `RUNNING` case) it returns `false`; on `SUCCEEDED` it
returns `isCollisionFree(path) && isWithinTolerance(...)`, with the
C++ `&&` short-circuit. -/
def plannerTest (free : Nat → Nat → Bool) (robot_position : Point)
    (goal : Point) (status : TaskStatus) (path : List Point) :
    Option Bool :=
  match status with
  | TaskStatus.failed => some false
  | TaskStatus.succeeded =>
    if isCollisionFree free path then isWithinTolerance3 robot_position goal path
    else some false
  | TaskStatus.running => some false

/-- The number of failed trials accumulated by the loop of
`PlannerTester::defaultPlannerRandomTests` (planner_tester.cpp, lines
284-306): the `plannerTest` verdict of trial `i` is abstracted by
`outcome i`; `num_fail` counts the trials whose verdict was `false`. -/
def countFailures (outcome : Nat → Bool) (number_tests : Nat) : Nat :=
  (List.range number_tests).countP (fun i => !outcome i)

/-- Embedding of `PlannerTester::defaultPlannerRandomTests` (planner_tester.cpp,
lines 243-319).  The two early-return guards are kept; the randomized
trial outcomes are abstracted by `outcome`.  The final comparison is
the source expression `(num_fail / number_tests) > acceptable_fail_ratio`: both
operands of `/` are `unsigned int`, so the division is the unsigned
integer quotient, converted to floating point only afterwards for the
comparison against the `float` ratio. -/
def defaultPlannerRandomTests (costmap_set using_fake_costmap : Bool)
    (outcome : Nat → Bool) (number_tests : Nat)
    (acceptable_fail_ratio : ℚ) : Bool :=
  if !costmap_set then false
  else if using_fake_costmap then false
  else
    let num_fail := countFailures outcome number_tests
    if ((num_fail / number_tests : Nat) : ℚ) > acceptable_fail_ratio then false
    else true

/-- What the final check of `defaultPlannerRandomTests` reads as in the spec
("declares overall failure if the observed failure ratio exceeds a
configured acceptable threshold"): the failure count over the number of
trials as a real-valued fraction, compared against the ratio.  Stated
from the words of the spec, for comparison with the integer-quotient
comparison of the source. -/
def specRandomTestsVerdict (costmap_set using_fake_costmap : Bool)
    (outcome : Nat → Bool) (number_tests : Nat)
    (acceptable_fail_ratio : ℚ) : Bool :=
  if !costmap_set then false
  else if using_fake_costmap then false
  else
    let num_fail := countFailures outcome number_tests
    if (num_fail : ℚ) / (number_tests : ℚ) > acceptable_fail_ratio then false
    else true

/-- The enum `nav2_recoveries::Status` (recovery.hpp; used throughout
test_recoveries.cpp). -/
inductive Status where
  | succeeded
  | failed
  | running
deriving DecidableEq, Repr

/-- The mutable state of `DummyRecovery` (test_recoveries.cpp, lines
89-92): the `initialized_` flag, the stored `command_` string, and the
captured `start_time_` (a `std::chrono::system_clock::time_point`,
modelled as an integer nanosecond count). -/
structure RecoveryState where
  initialized : Bool
  command : String
  start_time : Int
deriving DecidableEq, Repr

/-- The fixed motion duration of `DummyRecovery::onCycleUpdate`
(test_recoveries.cpp, line 79): `5s`, in nanoseconds. -/
def motionDuration : Int := 5000000000

/-- Embedding of `DummyRecovery::onRun` (test_recoveries.cpp, lines 46-61): stores
`initialized_ = false`, `command_ = goal->command.data`,
`start_time_ = now`, then, when the command is `"Testing success"` or
`"Testing failure on run"`, sets `initialized_ = true` and returns
`SUCCEEDED`; any other command returns `FAILED`.  `prev` is the object
state before the call (every field is overwritten). -/
def onRun (prev : RecoveryState) (now : Int) (goalCommand : String) :
    Status × RecoveryState :=
  let s := { prev with initialized := false, command := goalCommand, start_time := now }
  if goalCommand = "Testing success" ∨ goalCommand = "Testing failure on run" then
    (Status.succeeded, { s with initialized := true })
  else
    (Status.failed, s)

/-- Embedding of `DummyRecovery::onCycleUpdate` (test_recoveries.cpp, lines 63-87):
returns `FAILED` when the stored command is not `"Testing success"` or
the behavior is not initialized; otherwise `SUCCEEDED` once
`current_time - start_time_ >= motion_duration` and `RUNNING` before
that. -/
def onCycleUpdate (now : Int) (s : RecoveryState) : Status :=
  if s.command ≠ "Testing success" ∨ s.initialized = false then Status.failed
  else if motionDuration ≤ now - s.start_time then Status.succeeded
  else Status.running

/-- Modelled from the spec: the cyclic phase of the supervisor
(`Recovery<ActionT>` in nav2_recoveries, whose implementation is not
part of the sources here) invokes `onCycleUpdate` once per scheduler
tick while it returns `RUNNING` and stops at the first terminal status
(spec sections 4.1-4.2).  `ticks` is the list of tick timestamps; an
exhausted tick list leaves the run still `RUNNING`. -/
def cycleUntilTerminal (s : RecoveryState) : List Int → Status
  | [] => Status.running
  | t :: ts =>
    match onCycleUpdate t s with
    | Status.running => cycleUntilTerminal s ts
    | st => st

/-- Modelled from the spec: the supervisor (`Recovery<ActionT>`, not in
the sources here) runs `onRun` on the accepted goal; a non-`SUCCEEDED`
result terminates the instance with that status and no cyclic phase
ever runs, otherwise the cyclic phase drives `onCycleUpdate` to a
terminal status (spec section 4.1 and the scenario descriptions in
section 8).  Returns the final status together with the behavior state
left behind. -/
def runRecoveryFrom (prev : RecoveryState) (now : Int)
    (goalCommand : String) (ticks : List Int) : Status × RecoveryState :=
  match onRun prev now goalCommand with
  | (Status.succeeded, s) => (cycleUntilTerminal s ticks, s)
  | (st, s) => (st, s)

/-- Modelled from the spec: the action transport delivers the terminal
status of the behavior as the action result code, and
`RecoveryTest::getOutcome` (test_recoveries.cpp, lines 155-162) reports
`SUCCEEDED` exactly when the result code is the explicit success, and
`FAILED` for anything else. -/
def getOutcome (st : Status) : Status :=
  if st = Status.succeeded then Status.succeeded else Status.failed

/-- The enum `rclcpp::executor::FutureReturnCode`, the result of one
`rclcpp::spin_until_future_complete` call inside
`RecoveryTest::getResult` (test_recoveries.cpp, lines 164-174). -/
inductive FutureReturnCode where
  | success
  | interrupted
  | timeout
deriving DecidableEq, Repr

/-- The `do { frc = spin_until_future_complete(...); } while (frc !=
SUCCESS)` loop of `RecoveryTest::getResult` (test_recoveries.cpp, lines
169-171), abstracted over the sequence `frcs` of return codes of the
successive calls: `getResultExitedWithin frcs n = true` iff the loop has
exited after at most `n` iterations, i.e. iff one of the first `n` calls
returned `SUCCESS`. -/
def getResultExitedWithin (frcs : Nat → FutureReturnCode) (n : Nat) : Bool :=
  (List.range n).any (fun i => frcs i == FutureReturnCode.success)

/-- Embedding of `RecoveryTest::sendCommand` (test_recoveries.cpp, lines 119-142) as
a function of its three environment outcomes: whether
`wait_for_action_server(4s)` succeeded, whether spinning the goal future
returned `SUCCESS`, and whether the returned goal handle was non-null
(goal accepted).  Each failing check returns `false`; only the
all-clear path returns `true`. -/
def sendCommand (serverReady sendGoalOk goalAccepted : Bool) : Bool :=
  if serverReady = false then false
  else if sendGoalOk = false then false
  else if goalAccepted = false then false
  else true

/-- Floor of `(n/d) + 1/2` over `ℚ`, computed by integer division. -/
lemma floor_add_half (n : ℤ) (d : ℕ) (hd : d ≠ 0) :
    ⌊(n : ℚ) / (d : ℚ) + 1/2⌋ = (2 * n + d).ediv (2 * d) := by
  have hd' : (d : ℚ) ≠ 0 := Nat.cast_ne_zero.mpr hd
  have h : (n : ℚ) / (d : ℚ) + 1/2 = ((2 * n + (d : ℤ) : ℤ) : ℚ) / ((2 * d : ℕ) : ℚ) := by
    push_cast
    field_simp
    ring
  rw [h, Rat.floor_intCast_div_natCast]
  push_cast
  rfl

/-- Sanity check that `cppRound` is the textbook description of
`std::round`: `⌊q + 1/2⌋` for nonnegative `q` and `⌈q - 1/2⌉` for
negative `q` (halfway cases away from zero). -/
lemma cppRound_eq_floor_ceil (q : ℚ) :
    cppRound q = if 0 ≤ q then ⌊q + 1/2⌋ else ⌈q - 1/2⌉ := by
  by_cases hq : 0 ≤ q
  · rw [if_pos hq, cppRound, if_pos (Rat.num_nonneg.mpr hq)]
    conv_rhs => rw [← Rat.num_div_den q]
    rw [floor_add_half q.num q.den q.den_nz]
  · rw [if_neg hq, cppRound, if_neg (fun h => hq (Rat.num_nonneg.mp h))]
    have h0 : (-(q - 1/2) : ℚ) = -q + 1/2 := by ring
    have h1 : ⌊(-(q - 1/2) : ℚ)⌋ = -⌈(q - 1/2 : ℚ)⌉ := Int.floor_neg
    rw [h0] at h1
    have h2 : (-q : ℚ) = ((-q.num : ℤ) : ℚ) / (q.den : ℚ) := by
      push_cast
      rw [neg_div, Rat.num_div_den]
    rw [h2] at h1
    rw [floor_add_half (-q.num) q.den q.den_nz] at h1
    omega

/-- Lemma: `isCollisionFree` agrees with `List.all` over the per-pose
free check. -/
lemma isCollisionFree_eq_all (free : Nat → Nat → Bool) (path : List Point) :
    isCollisionFree free path =
      path.all (fun p => free (cellIndex p.x) (cellIndex p.y)) := by
  induction path with
  | nil => rfl
  | cons p rest ih =>
    cases h : free (cellIndex p.x) (cellIndex p.y) <;>
      simp [isCollisionFree, h, ih]

example : cppRound (-1 : ℚ) = -1 := by decide
example : cppRound 0 = 0 := by decide
example : cppRound (mkRat 3 2) = 2 := by decide
example : cppRound (mkRat (-3) 2) = -2 := by decide
example : cppRound (mkRat 7 3) = 2 := by decide
example : cellIndex (-1 : ℚ) = 4294967295 := by decide
example : countFailures (fun i => decide (5 ≤ i)) 10 = 5 := by decide
example : defaultPlannerRandomTests true false (fun i => decide (5 ≤ i)) 10 (mkRat 1 10) = true := by decide
example : specRandomTestsVerdict true false (fun i => decide (5 ≤ i)) 10 (mkRat 1 10) = false := by
  have h : countFailures (fun i => decide (5 ≤ i)) 10 = 5 := by decide
  simp only [specRandomTestsVerdict, h]
  norm_num [Rat.mkRat_eq_div]
example : isWithinTolerance3 ⟨0, 0⟩ ⟨8, 8⟩ [] = none := by decide
example : isWithinTolerance3 ⟨0, 0⟩ ⟨8, 8⟩ [⟨0, 0⟩, ⟨4, 4⟩, ⟨8, 8⟩] = some true := by decide
example : isCollisionFree (fun a b => decide (a + b < 10)) [⟨1, 1⟩, ⟨9, 9⟩] = false := by decide
example : (runRecoveryFrom ⟨false, "", 0⟩ 0 "Testing success" [6000000000]).1 = Status.succeeded := by decide
example : (runRecoveryFrom ⟨false, "", 0⟩ 0 "Testing success" [1000000000]).1 = Status.running := by decide
example : (runRecoveryFrom ⟨false, "", 0⟩ 0 "Testing failure on run" [1]).1 = Status.failed := by decide
example : (runRecoveryFrom ⟨false, "", 0⟩ 0 "Testing failure on init" [1]).1 = Status.failed := by decide

/-- C1: `defaultPlannerRandomTests` does not compare the real-valued
failure fraction against the acceptable ratio: with 10 trials of which
the first 5 fail and ratio `0.1`, the observed failure fraction `5/10`
exceeds `1/10` (so the spec-mandated verdict is overall failure,
`false`), yet the unsigned-integer quotient `5 / 10 = 0` computed by the code is not
greater than `0.1`, so the code returns `true` (overall pass). -/
theorem randomTests_integer_quotient_bug :
    countFailures (fun i => decide (5 ≤ i)) 10 = 5 ∧
    ((5 : ℚ) / (10 : ℚ) > 1/10) ∧
    specRandomTestsVerdict true false (fun i => decide (5 ≤ i)) 10 (1/10) = false ∧
    defaultPlannerRandomTests true false (fun i => decide (5 ≤ i)) 10 (1/10) = true := by
  have h : countFailures (fun i => decide (5 ≤ i)) 10 = 5 := by decide
  refine ⟨h, by norm_num, ?_, ?_⟩
  · simp only [specRandomTestsVerdict, h]
    norm_num
  · simp only [defaultPlannerRandomTests, h]
    norm_num

/-- C2: `isCollisionFree` returns `true` iff every pose of the path has
its converted cell `(cellIndex x, cellIndex y)` free in the costmap, and
the empty path is classified collision-free. -/
theorem isCollisionFree_iff_every_cell_free (free : Nat → Nat → Bool)
    (path : List Point) :
    (isCollisionFree free path = true ↔
      ∀ p ∈ path, free (cellIndex p.x) (cellIndex p.y) = true) ∧
    isCollisionFree free [] = true := by
  refine ⟨?_, rfl⟩
  rw [isCollisionFree_eq_all]
  simp [List.all_eq_true]

/-- C3: the five-argument `isWithinTolerance` ignores both
`deviationTolerance` and `reference_path`: on any nonempty path its
result is the same for every tolerance and reference path, and it is
`true` exactly when the first pose of the path equals the robot start
position and its last pose equals the goal position under exact
coordinate equality. -/
theorem isWithinTolerance_exact_equality_ignores_tolerance
    (robot_position goal : Point) (path : List Point)
    (tol tol' : ℚ) (ref ref' : List Point) (pf pl : Point)
    (hfirst : path.head? = some pf) (hlast : path.getLast? = some pl) :
    isWithinTolerance5 robot_position goal path tol ref =
      isWithinTolerance5 robot_position goal path tol' ref' ∧
    isWithinTolerance5 robot_position goal path tol ref =
      some (decide (pf.x = robot_position.x ∧ pf.y = robot_position.y ∧
        pl.x = goal.x ∧ pl.y = goal.y)) := by
  simp [isWithinTolerance5, hfirst, hlast]

theorem isWithinTolerance_exact_equality_ignores_tolerance_witness :
    ([⟨0, 0⟩, ⟨4, 5⟩, ⟨8, 8⟩] : List Point).head? = some ⟨0, 0⟩ ∧
    ([⟨0, 0⟩, ⟨4, 5⟩, ⟨8, 8⟩] : List Point).getLast? = some ⟨8, 8⟩ ∧
    (isWithinTolerance5 ⟨0, 0⟩ ⟨8, 8⟩ [⟨0, 0⟩, ⟨4, 5⟩, ⟨8, 8⟩] 1 [⟨1, 1⟩] =
      isWithinTolerance5 ⟨0, 0⟩ ⟨8, 8⟩ [⟨0, 0⟩, ⟨4, 5⟩, ⟨8, 8⟩] 2 [] ∧
    isWithinTolerance5 ⟨0, 0⟩ ⟨8, 8⟩ [⟨0, 0⟩, ⟨4, 5⟩, ⟨8, 8⟩] 1 [⟨1, 1⟩] =
      some (decide ((0 : ℚ) = 0 ∧ (0 : ℚ) = 0 ∧ (8 : ℚ) = 8 ∧ (8 : ℚ) = 8))) :=
  ⟨by decide, by decide,
    isWithinTolerance_exact_equality_ignores_tolerance ⟨0, 0⟩ ⟨8, 8⟩
      [⟨0, 0⟩, ⟨4, 5⟩, ⟨8, 8⟩] 1 2 [⟨1, 1⟩] [] ⟨0, 0⟩ ⟨8, 8⟩
      (by decide) (by decide)⟩

/-- C9: the five-argument `isWithinTolerance` reads the first and last
elements of the pose list unconditionally; on an empty pose list both
accesses are out of bounds (`none` in the total embedding), and its
caller `plannerTest` reaches that call on any `SUCCEEDED` status, a
zero-pose path included. -/
theorem isWithinTolerance_empty_path_out_of_bounds
    (robot_position goal : Point) (tol : ℚ) (ref : List Point)
    (free : Nat → Nat → Bool) :
    isWithinTolerance5 robot_position goal [] tol ref = none ∧
    isWithinTolerance3 robot_position goal [] = none ∧
    plannerTest free robot_position goal TaskStatus.succeeded [] = none := by
  exact ⟨rfl, rfl, rfl⟩

/-- C10: a pose coordinate whose rounded value is negative is not
rejected; `static_cast<unsigned int>` wraps it modulo `2^32`, so the
cell index handed to the free predicate is `round(coord) + 2^32`
(e.g. `-1.0` becomes `4294967295`), and the collision classification of
such a pose consults the costmap at that wrapped index. -/
theorem negative_coordinate_wraps_modulo
    (q : ℚ) (hneg : cppRound q < 0) (hrange : -(2 ^ 32) ≤ cppRound q) :
    (cellIndex q : Int) = cppRound q + 2 ^ 32 ∧
    cellIndex (-1 : ℚ) = 4294967295 ∧
    (∀ free : Nat → Nat → Bool, ∀ y : ℚ, ∀ rest : List Point,
      isCollisionFree free (⟨-1, y⟩ :: rest) =
        if free 4294967295 (cellIndex y) then isCollisionFree free rest
        else false) := by
  refine ⟨?_, by decide, fun free y rest => ?_⟩
  · show ((cppRound q % (2 ^ 32 : Int)).toNat : Int) = cppRound q + 2 ^ 32
    have h1 : cppRound q % (2 ^ 32 : Int) = (cppRound q + 2 ^ 32) % (2 ^ 32 : Int) := by
      conv_rhs => rw [show (cppRound q + 2 ^ 32 : Int) = cppRound q + 2 ^ 32 * 1 by ring]
      rw [Int.add_mul_emod_self_left]
    have h2 : (cppRound q + 2 ^ 32) % (2 ^ 32 : Int) = cppRound q + 2 ^ 32 :=
      Int.emod_eq_of_lt (by omega) (by omega)
    rw [h1, h2, Int.toNat_of_nonneg (by omega)]
  · show isCollisionFree free (⟨-1, y⟩ :: rest) = _
    rw [isCollisionFree]
    norm_num [show cellIndex (-1 : ℚ) = 4294967295 from by decide]

theorem negative_coordinate_wraps_modulo_witness :
    cppRound (-1 : ℚ) < 0 ∧ -(2 ^ 32) ≤ cppRound (-1 : ℚ) ∧
    (cellIndex (-1 : ℚ) : Int) = cppRound (-1 : ℚ) + 2 ^ 32 :=
  ⟨by decide, by decide,
    (negative_coordinate_wraps_modulo (-1) (by decide) (by decide)).1⟩

/-- Lemma: `onRun` overwrites every field of the behavior state, so its result
does not depend on the state left by a previous goal. -/
lemma onRun_state_independent (p q : RecoveryState) (t : Int) (cmd : String) :
    onRun p t cmd = onRun q t cmd := by
  cases p
  cases q
  rfl

/-- Lemma: `runRecoveryFrom` inherits from `onRun` the independence
from the previous behavior state. -/
lemma runRecoveryFrom_state_independent (p q : RecoveryState) (t : Int)
    (cmd : String) (ticks : List Int) :
    runRecoveryFrom p t cmd ticks = runRecoveryFrom q t cmd ticks := by
  unfold runRecoveryFrom
  rw [onRun_state_independent p q t cmd]

/-- Lemma: `onCycleUpdate` on the state left by a successful
`onRun("Testing success")` is a pure timer check. -/
lemma onCycleUpdate_success_state (t t0 : Int) :
    onCycleUpdate t ⟨true, "Testing success", t0⟩ =
      if motionDuration ≤ t - t0 then Status.succeeded else Status.running := by
  simp [onCycleUpdate]

/-- The spec-modelled cyclic phase on the `"Testing success"` state
reaches `SUCCEEDED` as soon as some tick is at least the motion
duration past the captured start time. -/
lemma cycleUntilTerminal_success_reached (t0 : Int) (ticks : List Int)
    (h : ∃ t ∈ ticks, motionDuration ≤ t - t0) :
    cycleUntilTerminal ⟨true, "Testing success", t0⟩ ticks = Status.succeeded := by
  induction ticks with
  | nil => simp at h
  | cons t ts ih =>
    rw [cycleUntilTerminal, onCycleUpdate_success_state]
    by_cases hd : motionDuration ≤ t - t0
    · rw [if_pos hd]
    · rw [if_neg hd]
      rcases h with ⟨x, hx, hxd⟩
      rcases List.mem_cons.mp hx with rfl | hx'
      · exact absurd hxd hd
      · exact ih ⟨x, hx', hxd⟩

/-- C4: the result wait in `getResult` has no fixed bound: no single
iteration budget `B` makes the retry loop exit for every sequence of
`spin_until_future_complete` return codes (with a future that never
completes, no call returns `SUCCESS` and the loop never exits). -/
theorem getResult_wait_not_bounded :
    ¬ ∃ B : Nat, ∀ frcs : Nat → FutureReturnCode,
        getResultExitedWithin frcs B = true := by
  rintro ⟨B, h⟩
  have h2 := h (fun _ => FutureReturnCode.interrupted)
  simp [getResultExitedWithin, List.any_eq_true] at h2

/-- C4 (amended): the `do`-`while` loop of `getResult` retries
`spin_until_future_complete` indefinitely: it has exited within `n`
iterations exactly when one of the first `n` calls returned `SUCCESS`,
with no caller-side wait budget. -/
theorem getResult_retries_until_success (frcs : Nat → FutureReturnCode)
    (n : Nat) :
    getResultExitedWithin frcs n = true ↔
      ∃ i, i < n ∧ frcs i = FutureReturnCode.success := by
  simp [getResultExitedWithin, List.any_eq_true, List.mem_range]

/-- C5: the server-not-ready outcome of `sendCommand` is the same value
`false` as the goal-rejected outcome — the caller cannot tell them
apart from the return value. -/
theorem sendCommand_server_unready_equals_rejected :
    sendCommand false true true = false ∧
    sendCommand true true false = false ∧
    sendCommand false true true = sendCommand true true false := by
  decide

/-- C5 (amended): `sendCommand` reports one boolean: `true` exactly when
the action server became ready, the goal future completed, and the goal
was accepted; all three failure cases collapse into `false`. -/
theorem sendCommand_single_boolean (serverReady sendGoalOk goalAccepted : Bool) :
    sendCommand serverReady sendGoalOk goalAccepted =
      (serverReady && sendGoalOk && goalAccepted) := by
  cases serverReady <;> cases sendGoalOk <;> cases goalAccepted <;> rfl

/-- C6: for the command `"Testing success"`, `onRun` returns `SUCCEEDED`
with the behavior initialized; every cyclic update strictly before the
motion duration has elapsed returns `RUNNING` and every one at or past
it returns `SUCCEEDED`; a run whose ticks reach the motion duration
ends with `getOutcome = SUCCEEDED`. -/
theorem testingSuccess_scenario (prev : RecoveryState) (t0 : Int)
    (ticks : List Int) (hreach : ∃ t ∈ ticks, motionDuration ≤ t - t0) :
    (onRun prev t0 "Testing success").1 = Status.succeeded ∧
    (onRun prev t0 "Testing success").2.initialized = true ∧
    (∀ t : Int, t - t0 < motionDuration →
      onCycleUpdate t (onRun prev t0 "Testing success").2 = Status.running) ∧
    (∀ t : Int, motionDuration ≤ t - t0 →
      onCycleUpdate t (onRun prev t0 "Testing success").2 = Status.succeeded) ∧
    getOutcome (runRecoveryFrom prev t0 "Testing success" ticks).1 =
      Status.succeeded := by
  have hrun : onRun prev t0 "Testing success" =
      (Status.succeeded, ⟨true, "Testing success", t0⟩) := rfl
  refine ⟨by rw [hrun], by rw [hrun], ?_, ?_, ?_⟩
  · intro t ht
    rw [hrun, onCycleUpdate_success_state, if_neg (by omega)]
  · intro t ht
    rw [hrun, onCycleUpdate_success_state, if_pos ht]
  · have hfrom : runRecoveryFrom prev t0 "Testing success" ticks =
        (cycleUntilTerminal ⟨true, "Testing success", t0⟩ ticks,
          ⟨true, "Testing success", t0⟩) := rfl
    rw [hfrom]
    rw [cycleUntilTerminal_success_reached t0 ticks hreach]
    rfl

theorem testingSuccess_scenario_witness :
    (∃ t ∈ ([5000000000] : List Int), motionDuration ≤ t - 0) ∧
    getOutcome (runRecoveryFrom ⟨false, "", 0⟩ 0 "Testing success"
      [5000000000]).1 = Status.succeeded :=
  ⟨by decide,
    (testingSuccess_scenario ⟨false, "", 0⟩ 0 [5000000000] (by decide)).2.2.2.2⟩

/-- C7 (counterexample): after `onRun` on the command
`"Testing failure on run"` the `initialized_` flag is `true`, not
`false` — the command is in the same branch as `"Testing success"`
(test_recoveries.cpp, lines 55-58), so the claimed "initialized flag
left false" is wrong. -/
theorem failure_on_run_sets_initialized :
    (onRun ⟨false, "", 0⟩ 0 "Testing failure on run").1 = Status.succeeded ∧
    (onRun ⟨false, "", 0⟩ 0 "Testing failure on run").2.initialized = true := by
  decide

/-- C7 (amended): for the command `"Testing failure on run"`, `onRun`
succeeds and sets the initialized flag to `true`; every cyclic update
nevertheless returns `FAILED` — because the stored command differs from
`"Testing success"`, not because of the initialized flag — so
`getOutcome` yields `FAILED`. -/
theorem testingFailureOnRun_scenario (prev : RecoveryState) (t0 : Int)
    (ticks : List Int) :
    (onRun prev t0 "Testing failure on run").1 = Status.succeeded ∧
    (onRun prev t0 "Testing failure on run").2.initialized = true ∧
    (∀ t : Int,
      onCycleUpdate t (onRun prev t0 "Testing failure on run").2 =
        Status.failed) ∧
    getOutcome (runRecoveryFrom prev t0 "Testing failure on run" ticks).1 =
      Status.failed := by
  refine ⟨rfl, rfl, fun t => rfl, ?_⟩
  cases ticks with
  | nil => rfl
  | cons t ts => rfl

/-- C8: the failure-on-init scenario followed by the failure-on-run
scenario on the same supervisor yields `FAILED` then `FAILED`; `onRun`
rebuilds the whole behavior state from the new goal alone, so the
second run equals the same run started from any fresh state. -/
theorem sequentialFailures_independence (prev fresh : RecoveryState)
    (t0 t1 : Int) (ticks0 ticks1 : List Int) :
    getOutcome (runRecoveryFrom prev t0 "Testing failure on init" ticks0).1 =
      Status.failed ∧
    (∀ p q : RecoveryState, ∀ t : Int, ∀ cmd : String,
      onRun p t cmd = onRun q t cmd) ∧
    runRecoveryFrom (runRecoveryFrom prev t0 "Testing failure on init" ticks0).2
        t1 "Testing failure on run" ticks1 =
      runRecoveryFrom fresh t1 "Testing failure on run" ticks1 ∧
    getOutcome (runRecoveryFrom
        (runRecoveryFrom prev t0 "Testing failure on init" ticks0).2
        t1 "Testing failure on run" ticks1).1 = Status.failed := by
  refine ⟨rfl, fun p q t cmd => onRun_state_independent p q t cmd, ?_, ?_⟩
  · exact runRecoveryFrom_state_independent _ fresh t1 "Testing failure on run" ticks1
  · cases ticks1 with
    | nil => rfl
    | cons t ts => rfl

end Nav2
